import Mathlib

/-!
# Verification of the partition-migration subsystem (`as/src/fabric/migrate.c`)

This development shallowly embeds the migration engine of the Aerospike
server source tree: the emigration state machine (START handshake, tree
sweep with the `bytes_emigrating` backpressure window, reinsert/retransmit
loop, DONE handshake) and the immigration message handlers
(`immigration_handle_start_request`, `immigration_handle_insert_request`,
`immigration_handle_done_request`, `emigration_handle_insert_ack`).

Machine integers are modelled as `Nat`/`Int` (none of the embedded logic
depends on 32/64-bit wraparound), opaque buffers (digests, namespaces,
pickles, rec-props) as `Nat` identifiers, and the fabric-message field bag
as a structure of `Option` fields mirroring the `migrate_mt` template.
Concurrency (acks racing the producer) is modelled by a small-step
transition relation; the sequential message handlers are modelled as
pure functions from their inputs and collaborator observations to an
outcome record.
-/

namespace Migrate

/-! ## Wire constants (from `migrate.c`, lines 89-130) -/

def OPERATION_UNDEF : Nat := 0
def OPERATION_INSERT : Nat := 1
def OPERATION_INSERT_ACK : Nat := 2
def OPERATION_START : Nat := 3
def OPERATION_START_ACK_OK : Nat := 4
def OPERATION_START_ACK_EAGAIN : Nat := 5
def OPERATION_START_ACK_FAIL : Nat := 6
def OPERATION_START_ACK_ALREADY_DONE : Nat := 7
def OPERATION_DONE : Nat := 8
def OPERATION_DONE_ACK : Nat := 9
def OPERATION_CANCEL : Nat := 10

/-- `#define MAX_BYTES_EMIGRATING (32 * 1024 * 1024)` -/
def MAX_BYTES_EMIGRATING : Nat := 32 * 1024 * 1024

/-! ## The migrate fabric message

One `Option` field per entry of the `migrate_mt` template (field present
in the sparse bag, or absent).  Buffer-valued fields are abstracted to
`Nat` identifiers; the `RECORD` field additionally carries the leading
16-bit bin count that `immigration_handle_insert_request` peeks at
(`*(uint16_t *)c.record_buf`). -/

structure MigMsg where
  op : Option Nat := none
  emig_insert_id : Option Nat := none
  emig_id : Option Nat := none
  nsName : Option Nat := none
  partition : Option Nat := none
  digest : Option Nat := none
  generation : Option Nat := none
  record : Option (Nat × Nat) := none -- (peeked bin count, payload)
  cluster_key : Option Nat := none
  vinfoset : Option Nat := none
  void_time : Option Nat := none
  mtype : Option Nat := none -- MIG_FIELD_TYPE
  rec_props : Option Nat := none
  info : Option Nat := none
  version : Option Nat := none
  pdigest : Option Nat := none
  edigest : Option Nat := none
  pgeneration : Option Nat := none
  pvoid_time : Option Nat := none
deriving DecidableEq, Repr

/-- The INSERT_ACK reply built in place from the INSERT message by
`immigration_handle_insert_request` (migrate.c lines 1525-1532):
`msg_set_unset` on INFO, RECORD, DIGEST, NAMESPACE, GENERATION and
VOID_TIME, then `msg_set_uint32(m, MIG_FIELD_OP, OPERATION_INSERT_ACK)`,
then `msg_set_unset` on REC_PROPS. -/
def insert_ack_msg (m : MigMsg) : MigMsg :=
  { m with
    info := none
    record := none
    digest := none
    nsName := none
    generation := none
    void_time := none
    op := some OPERATION_INSERT_ACK
    rec_props := none }

/-! ## Immigration: INSERT handling (`immigration_handle_insert_request`)

The handler looks up `(src, emig_id)` in `g_immigration_hash`, checks
cluster-key drift, extracts the record fields (defaulting a missing
GENERATION to 1 and coercing generation 0 to 1, defaulting a missing
VOID_TIME to 0), drops bin-less pickles, hands the merge component to
`as_record_flatten`, and finally rewrites the incoming message into an
INSERT_ACK and sends it back.

The LDT component fill (`as_ldt_get_migrate_info`) always returns 0 in
the source (its only non-returning exit is a `cf_crash` on a dummy
component), so the `if (as_ldt_get_migrate_info(...))` drop branch is
dead; the fields it fills (pdigest/edigest/version/flag) do not bear on
the claims and are elided from the merge component. -/

/-- The immigration object, as seen by the insert handler: only its
captured cluster key is consulted. -/
structure ImmigIns where
  cluster_key : Nat
deriving DecidableEq, Repr

/-- The `as_record_merge_component` fields filled from the message
(migrate.c lines 1488-1494). -/
structure MergeComp where
  record_buf : Nat
  generation : Nat
  void_time : Nat
  rec_props : Option Nat
deriving DecidableEq, Repr

/-- Outcome of one `immigration_handle_insert_request` call:
`merged` is the component handed to `as_record_flatten` (if it was
called), `ackMsg` the INSERT_ACK handed to `as_fabric_send` (if the
handler reached the ack send), `freed` whether the handler dropped and
freed the message without replying. -/
structure InsertOutcome where
  merged : Option MergeComp
  ackMsg : Option MigMsg
  freed : Bool
deriving DecidableEq, Repr

/-- `immigration_handle_insert_request` (migrate.c lines 1419-1541).
`hash` is the lookup view of `g_immigration_hash`, `ckCur` the value
`as_paxos_get_cluster_key()` returns, `flattenRv` the result the
record-merge collaborator (`as_record_flatten`) would return. -/
def immigration_handle_insert_request (hash : Nat × Nat → Option ImmigIns)
    (ckCur : Nat) (src : Nat) (m : MigMsg) (flattenRv : Int) : InsertOutcome :=
  match m.digest with
  | none => ⟨none, none, true⟩
  | some _ =>
    match m.emig_id with
    | none => ⟨none, none, true⟩
    | some emigId =>
      match hash (src, emigId) with
      | some immig =>
        if immig.cluster_key ≠ ckCur then ⟨none, none, true⟩
        else
          let generation := m.generation.getD 1
          let generation := if generation = 0 then 1 else generation
          let void_time := m.void_time.getD 0
          match m.record with
          | none => ⟨none, none, true⟩
          | some (binCount, payload) =>
            let c : MergeComp := ⟨payload, generation, void_time, m.rec_props⟩
            if binCount = 0 then
              -- "binless pickle, dropping" - warn, skip the flatten, still ack.
              ⟨none, some (insert_ack_msg m), false⟩
            else if flattenRv ≠ 0 ∧ flattenRv ≠ -3 then
              ⟨some c, none, true⟩
            else
              ⟨some c, some (insert_ack_msg m), false⟩
      | none =>
        -- No immigration found: fall through to the ack send anyway.
        ⟨none, some (insert_ack_msg m), false⟩

/-! ## Immigration: DONE handling (`immigration_handle_done_request`) -/

/-- The immigration object, as seen by the done handler. -/
structure ImmigDone where
  done_recv : Nat
  done_recv_ms : Nat
deriving DecidableEq, Repr

/-- The state the done handler reads and writes: the hash entry for
`(src, emig_id)`, the global `migrate_progress_recv` counter, the number
of `as_partition_migrate_rx(AS_MIGRATE_STATE_DONE, ...)` notifications
issued so far, and the number of DONE_ACK replies sent so far. -/
structure DoneCtx where
  entry : Option ImmigDone
  progressRecv : Int
  rxDone : Nat
  acks : Nat
deriving DecidableEq, Repr

/-- `immigration_handle_done_request` (migrate.c lines 1545-1609), for a
message whose EMIG_ID is present.  `lifetime` is
`g_config.migrate_rx_lifetime_ms`, `now` is `cf_getms()`.  The winner of
the atomic `done_recv` 0 -> 1 transition records `done_recv_ms`,
decrements `migrate_progress_recv` (un-doing the decrement if it went
negative), notifies the rebalance collaborator, and deletes the hash
entry immediately when `migrate_rx_lifetime_ms <= 0`; every path replies
DONE_ACK. -/
def immigration_handle_done_request (lifetime : Int) (now : Nat)
    (ctx : DoneCtx) : DoneCtx :=
  match ctx.entry with
  | some immig =>
    let dr := immig.done_recv + 1
    if dr = 1 then
      let pr := ctx.progressRecv - 1
      let pr := if pr < 0 then pr + 1 else pr
      { entry := if lifetime ≤ 0 then none else some ⟨dr, now⟩
        progressRecv := pr
        rxDone := ctx.rxDone + 1
        acks := ctx.acks + 1 }
    else
      { ctx with entry := some { immig with done_recv := dr }, acks := ctx.acks + 1 }
  | none =>
    -- Unknown migration: ack anyway.
    { ctx with acks := ctx.acks + 1 }

/-- Delivering the same DONE message once per timestamp in `ts`. -/
def deliverDones (lifetime : Int) : List Nat → DoneCtx → DoneCtx
  | [], ctx => ctx
  | t :: ts, ctx =>
    deliverDones lifetime ts (immigration_handle_done_request lifetime t ctx)

/-! ## Emigration: INSERT_ACK handling (`emigration_handle_insert_ack`)

The reinsert table (`emig->reinsert_hash`) is modelled as an association
list from `insert_id` to the stored message (abstracted to an
identifier).  The handler looks the insert id up under the per-slot
lock; if the ack's source equals the emigration's `dest` it subtracts
the ack message's `bytes_used` from `bytes_emigrating` (the counter is a
signed atomic: going negative only logs a warning), releases the stored
message and deletes the entry; a mismatched source only logs. -/

def riLookup (insertId : Nat) (ri : List (Nat × Nat)) : Option Nat :=
  (ri.find? (fun e => e.1 = insertId)).map (·.2)

def riDelete (insertId : Nat) (ri : List (Nat × Nat)) : List (Nat × Nat) :=
  ri.filter (fun e => e.1 ≠ insertId)

/-- Outcome of `emigration_handle_insert_ack` on the fields the claims
speak about: the new `bytes_emigrating`, the new reinsert table, and the
stored message released (if any). -/
structure AckOutcome where
  bytesEmigrating : Int
  reinsert : List (Nat × Nat)
  released : Option Nat
deriving DecidableEq, Repr

/-- `emigration_handle_insert_ack` (migrate.c lines 1615-1668), after the
emigration has been found in `g_emigration_hash` and the EMIG_INSERT_ID
field extracted.  `dest` is `emig->dest`, `bytes` is
`emig->bytes_emigrating`, `ackBytes` is the incoming ack message's
`m->bytes_used`. -/
def emigration_handle_insert_ack (dest : Nat) (bytes : Int)
    (ri : List (Nat × Nat)) (src : Nat) (insertId : Nat) (ackBytes : Nat) :
    AckOutcome :=
  match riLookup insertId ri with
  | some storedMsg =>
    if src = dest then
      ⟨bytes - ackBytes, riDelete insertId ri, some storedMsg⟩
    else
      -- "insert ack: unexpected source" - log and ignore.
      ⟨bytes, ri, none⟩
  | none => ⟨bytes, ri, none⟩

/-! ## Immigration: START handling (`immigration_handle_start_request`) -/

/-- The result of `as_partition_migrate_rx(AS_MIGRATE_STATE_START, ...)`,
the rebalance collaborator's admission decision. -/
inductive RxAllowRes where
  | ok
  | again
  | fail
  | alreadyDone
deriving DecidableEq, Repr

/-- An immigration as created by the START handler (the fields the claim
observes). -/
structure ImmigStart where
  src : Nat
  cluster_key : Nat
  start_recv_ms : Nat
deriving DecidableEq, Repr

/-- Outcome of `immigration_handle_start_request`: the reply op sent (if
the handler replied), the updated `g_immigration_hash` (keyed by
`(src, emig_id)`), whether the freshly allocated immigration object was
released instead of being inserted, and whether
`migrate_progress_recv` was incremented. -/
structure StartOutcome where
  reply : Option Nat
  hash : List ((Nat × Nat) × ImmigStart)
  releasedNew : Bool
  progressRecvIncr : Bool
deriving DecidableEq, Repr

/-- `immigration_handle_start_request` (migrate.c lines 1261-1415).
`ckCur` is `as_paxos_get_cluster_key()`, `nsOk` whether
`as_namespace_get_bybuf` resolves the NAMESPACE field, `rxAllow` the
rebalance collaborator's decision, `rsvCk` the reserved partition's
cluster key (`immig->rsv.cluster_key`), `now` is `cf_getms()`.
The unique-put into `g_immigration_hash` fails when the key is already
present; that duplicate-START path releases the new immigration and
still falls through to the START_ACK_OK reply. -/
def immigration_handle_start_request (hash : List ((Nat × Nat) × ImmigStart))
    (ckCur : Nat) (nsOk : Bool) (rxAllow : RxAllowRes) (rsvCk : Nat)
    (src : Nat) (m : MigMsg) (now : Nat) : StartOutcome :=
  match m.emig_id with
  | none => ⟨none, hash, false, false⟩
  | some emigId =>
    match m.cluster_key with
    | none => ⟨none, hash, true, false⟩
    | some ck =>
      if ck ≠ ckCur then ⟨some OPERATION_START_ACK_EAGAIN, hash, true, false⟩
      else match m.nsName with
      | none => ⟨none, hash, true, false⟩
      | some _ =>
        if ¬nsOk then ⟨none, hash, true, false⟩
        else match m.partition with
        | none => ⟨none, hash, true, false⟩
        | some _ =>
          match rxAllow with
          | .fail => ⟨some OPERATION_START_ACK_FAIL, hash, true, false⟩
          | .again => ⟨some OPERATION_START_ACK_EAGAIN, hash, true, false⟩
          | .alreadyDone =>
            ⟨some OPERATION_START_ACK_ALREADY_DONE, hash, true, false⟩
          | .ok =>
            if ck ≠ rsvCk then
              ⟨some OPERATION_START_ACK_EAGAIN, hash, true, false⟩
            else if (hash.find? (fun e => e.1 = (src, emigId))).isSome then
              -- rchash_put_unique failed: duplicate START.
              ⟨some OPERATION_START_ACK_OK, hash, true, false⟩
            else
              ⟨some OPERATION_START_ACK_OK,
                ((src, emigId), ⟨src, ck, now⟩) :: hash, false, true⟩

/-! ## Emigration: the START and DONE handshake loops

Each loop iteration of `emigration_send_start` first compares the
emigration's captured cluster key against `as_paxos_get_cluster_key()`,
then (when the retransmit interval elapsed) re-sends, then pops the
control queue with a timeout.  An iteration is abstracted to the pair of
collaborator observations it makes: the current cluster key and the
popped control op (`none` = pop timed out).  The re-send itself does not
influence the loop's outcome in `emigration_send_start` (a failed send
is logged and the loop continues), so it is not part of the observation.

`emigration_send_done` is NOT symmetric: its loop body never reads the
cluster key.  Its observations are the fabric result of the re-send (if
one was due this iteration) and whether a matching DONE_ACK was popped.
The current cluster key is still recorded in the observation to make the
loop's indifference to it expressible. -/

/-- `as_migrate_state` results relevant to the control loops. -/
inductive MigState where
  | start
  | done
  | error
deriving DecidableEq, Repr

/-- One iteration's observations in the `emigration_send_start` loop. -/
structure StartObs where
  ckCur : Nat
  pop : Option Nat
deriving DecidableEq, Repr

/-- `emigration_send_start` (migrate.c lines 1009-1092), abstracted over
the per-iteration observations; returns the `as_migrate_state` result
together with the number of `migrate_tx_partitions_imbalance`
increments, or `none` if the observation list ends with the loop still
running. -/
def emigration_send_start (ck : Nat) : List StartObs → Option (MigState × Nat)
  | [] => none
  | obs :: rest =>
    if ck ≠ obs.ckCur then some (.error, 0)
    else match obs.pop with
    | some op =>
      if op = OPERATION_START_ACK_OK then some (.start, 0)
      else if op = OPERATION_START_ACK_ALREADY_DONE then some (.done, 0)
      else if op = OPERATION_START_ACK_EAGAIN then
        emigration_send_start ck rest
      else if op = OPERATION_START_ACK_FAIL then some (.error, 1)
      else -- "unexpected ctrl op" - warn and loop.
        emigration_send_start ck rest
    | none => emigration_send_start ck rest

/-- Fabric send results relevant to the DONE loop. -/
inductive FabricRv where
  | ok
  | queueFull
  | noNode
deriving DecidableEq, Repr

/-- One iteration's observations in the `emigration_send_done` loop:
the cluster key `as_paxos_get_cluster_key()` would return (never read by
the code), the fabric result of the DONE re-send (`none` when the
retransmit interval had not elapsed), and whether a DONE_ACK for this
emigration was popped from the control queue. -/
structure DoneObs where
  ckCur : Nat
  sendRv : Option FabricRv
  popDoneAck : Bool
deriving DecidableEq, Repr

/-- `emigration_send_done` (migrate.c lines 1095-1154), abstracted over
the per-iteration observations.  `emigCk` is the emigration's captured
cluster key; the loop never consults it (nor the current cluster key):
its only exits are a fabric NO_NODE on the re-send (error) and a popped
DONE_ACK (done). -/
def emigration_send_done (emigCk : Nat) : List DoneObs → Option MigState
  | [] => none
  | obs :: rest =>
    match obs.sendRv with
    | some .noNode => some .error
    | _ => if obs.popDoneAck then some .done else emigration_send_done emigCk rest

/-- The phase composition of `emigrate` (migrate.c lines 677-754): if
`emigration_send_start` returns anything but `AS_MIGRATE_STATE_START`,
that result is returned at once - the tree phases (which send the
INSERTs) and the DONE handshake are never reached.  `treePhases`
abstracts everything from the first tree sweep on; it yields the final
result, the imbalance increments and the number of INSERTs sent there.
The returned triple is (result, imbalance increments, INSERTs sent). -/
def emigrate (ck : Nat) (startObs : List StartObs)
    (treePhases : Option (MigState × Nat × Nat)) :
    Option (MigState × Nat × Nat) :=
  match emigration_send_start ck startObs with
  | none => none
  | some (.start, imb) =>
    match treePhases with
    | none => none
    | some (res, imb', inserts) => some (res, imb + imb', inserts)
  | some (res, imb) => some (res, imb, 0)

/-! ## The emigration lifecycle as a small-step system

The producer thread (`emigrate` / `emigrate_tree` /
`emigrate_tree_reduce_fn`) interleaves with the fabric callback thread
that handles INSERT_ACKs.  The observable shared state is the reinsert
table and `bytes_emigrating`; the producer's position is tracked by a
phase.

The faithfulness notes, keyed to `migrate.c`:
* `sendRecord` carries the guard `bytes <= MAX_BYTES_EMIGRATING`: the
  very first send starts from `bytes = 0`, and each later send is
  reached only after the poll loop at lines 924-932 has observed
  `bytes_emigrating <= MAX_BYTES_EMIGRATING` (acks in between only
  decrease the counter).  The `ckOk` guard reflects the reduce
  function's cluster-key check at line 822; when that check fails the
  record is not sent and the sweep aborts (`sweepFail`).
* `ack` removes one in-flight entry and decrements `bytes_emigrating`
  by the ack message's `bytes_used` (an arbitrary `d`: the counter is
  signed and may go negative, which the code only warns about).
* `drainExit` is the retransmit loop of `emigrate_tree` (lines
  773-805): an iteration first checks the cluster key, and only then
  may observe `shash_get_size(reinsert_hash) == 0` and break; after the
  sub-record tree, `emigrate` enters the record tree, and after the
  record tree it proceeds to `emigration_send_done`.  A tree of size 0
  is skipped without touching the reinsert hash.
* `startAckAlreadyDone` terminates the whole emigration as DONE without
  any tree phase (`emigrate` line 728-730). -/

structure EmigParams where
  maxRec : Nat -- upper bound on any INSERT message's bytes_used
  ldtEnabled : Bool
  subSize : Nat -- elements of the sub-record tree
  recSize : Nat -- elements of the record tree
deriving DecidableEq, Repr

inductive Phase where
  | startWait
  | treeSweep (isSub : Bool) (remaining : Nat)
  | treeDrain (isSub : Bool)
  | doneWait
  | termDone
  | termError
deriving DecidableEq, Repr

structure EmigSt where
  phase : Phase
  ckOk : Bool -- captured cluster key still equals as_paxos_get_cluster_key()
  reinsert : List Nat -- bytes_used of each entry of reinsert_hash
  bytes : Int -- bytes_emigrating
  insertsSent : Nat
deriving DecidableEq, Repr

/-- Entry into `emigrate_tree` for the record tree: a tree of size 0 is
skipped (`as_index_tree_size(tree) == 0` shortcut), going straight to
the DONE handshake. -/
def enterRecordTree (p : EmigParams) : Phase :=
  if p.recSize = 0 then .doneWait else .treeSweep false p.recSize

/-- The phase after `emigration_send_start` returns
`AS_MIGRATE_STATE_START`: the sub-record tree first when
`ns->ldt_enabled`, then the record tree. -/
def phaseAfterStart (p : EmigParams) : Phase :=
  if p.ldtEnabled then
    (if p.subSize = 0 then enterRecordTree p else .treeSweep true p.subSize)
  else enterRecordTree p

def EmigSt.init : EmigSt :=
  { phase := .startWait, ckOk := true, reinsert := [], bytes := 0, insertsSent := 0 }

inductive EmigStep (p : EmigParams) : EmigSt → EmigSt → Prop where
  /-- The paxos collaborator changes the cluster key (terminal: captured
  keys are never refreshed). -/
  | keyChange (s) :
      EmigStep p s { s with ckOk := false }
  /-- `emigration_send_start` observes the changed cluster key and
  returns `AS_MIGRATE_STATE_ERROR`. -/
  | startCkFail (s) : s.phase = .startWait → s.ckOk = false →
      EmigStep p s { s with phase := .termError }
  /-- START_ACK_OK popped: proceed to the tree phases. -/
  | startAckOk (s) : s.phase = .startWait →
      EmigStep p s { s with phase := phaseAfterStart p }
  /-- START_ACK_ALREADY_DONE popped: terminate as DONE at once. -/
  | startAckAlreadyDone (s) : s.phase = .startWait →
      EmigStep p s { s with phase := .termDone }
  /-- START_ACK_FAIL popped (or allocation failure): terminate as error. -/
  | startAckFail (s) : s.phase = .startWait →
      EmigStep p s { s with phase := .termError }
  /-- `emigrate_tree_reduce_fn` pickles and sends one record of size
  `sz`, registering it in the reinsert hash and adding its size to
  `bytes_emigrating`; only enabled once the backpressure window has
  been observed open and with the cluster key unchanged. -/
  | sendRecord (s t r sz) : s.phase = .treeSweep t (r + 1) → s.ckOk = true →
      sz ≤ p.maxRec → s.bytes ≤ (MAX_BYTES_EMIGRATING : Int) →
      EmigStep p s { s with
        phase := .treeSweep t r
        reinsert := sz :: s.reinsert
        bytes := s.bytes + (sz : Int)
        insertsSent := s.insertsSent + 1 }
  /-- A record is skipped (pickle failure, stale sub-record version). -/
  | skipRecord (s t r) : s.phase = .treeSweep t (r + 1) →
      EmigStep p s { s with phase := .treeSweep t r }
  /-- The sweep aborts (cluster-key change seen by the reduce function,
  fabric-msg allocation failure, fabric NO_NODE, ...):
  `emig->aborted = true` and `emigrate_tree` returns ERROR. -/
  | sweepFail (s t r) : s.phase = .treeSweep t r →
      EmigStep p s { s with phase := .termError }
  /-- The tree reduce returns: enter the retransmit/drain loop. -/
  | sweepFinish (s t) : s.phase = .treeSweep t 0 →
      EmigStep p s { s with phase := .treeDrain t }
  /-- A drain-loop iteration passes the cluster-key check and observes
  the reinsert hash empty: `emigrate_tree` returns DONE. -/
  | drainExit (s t) : s.phase = .treeDrain t → s.ckOk = true → s.reinsert = [] →
      EmigStep p s { s with phase := if t then enterRecordTree p else .doneWait }
  /-- A drain-loop iteration fails (cluster-key change, fabric error in
  retransmission): `emigrate_tree` returns ERROR. -/
  | drainFail (s t) : s.phase = .treeDrain t →
      EmigStep p s { s with phase := .termError }
  /-- `emigration_handle_insert_ack` (on the fabric callback thread)
  deletes an in-flight entry and subtracts the ack message's
  `bytes_used` `d` from `bytes_emigrating`. -/
  | ack (s : EmigSt) (l₁ : List Nat) (sz : Nat) (l₂ : List Nat) (d : Nat) :
      s.reinsert = l₁ ++ sz :: l₂ →
      EmigStep p s { s with reinsert := l₁ ++ l₂, bytes := s.bytes - (d : Int) }
  /-- DONE_ACK popped: `emigration_send_done` returns DONE. -/
  | doneAck (s) : s.phase = .doneWait →
      EmigStep p s { s with phase := .termDone }
  /-- Fabric NO_NODE re-sending DONE: `emigration_send_done` returns
  ERROR. -/
  | doneFail (s) : s.phase = .doneWait →
      EmigStep p s { s with phase := .termError }

/-- States an emigration can reach from creation. -/
inductive EmigReach (p : EmigParams) : EmigSt → Prop where
  | init : EmigReach p EmigSt.init
  | step {s s'} : EmigReach p s → EmigStep p s s' → EmigReach p s'

/-! ## Invariant lemmas on the emigration lifecycle -/

/-- Strengthened invariant for the reinsert table: it is empty while
waiting for the START ack, while the DONE handshake runs, and in the
terminal DONE state. -/
def reinsertEmptyInv (s : EmigSt) : Prop :=
  (s.phase = .startWait → s.reinsert = []) ∧
  (s.phase = .doneWait → s.reinsert = []) ∧
  (s.phase = .termDone → s.reinsert = [])

theorem reinsertEmptyInv_reach {p : EmigParams} {s : EmigSt}
    (h : EmigReach p s) : reinsertEmptyInv s := by
  induction h with
  | init => exact ⟨fun _ => rfl, by simp [EmigSt.init], by simp [EmigSt.init]⟩
  | step hr hs ih =>
    rename_i s s'
    cases hs with
    | keyChange => exact ih
    | startCkFail h1 h2 => exact ⟨by simp, by simp, by simp⟩
    | startAckOk h1 =>
      refine ⟨fun _ => ?_, fun _ => ?_, fun _ => ?_⟩ <;> exact ih.1 h1
    | startAckAlreadyDone h1 => exact ⟨by simp, by simp, fun _ => ih.1 h1⟩
    | startAckFail h1 => exact ⟨by simp, by simp, by simp⟩
    | sendRecord t r sz h1 h2 h3 h4 => exact ⟨by simp, by simp, by simp⟩
    | skipRecord t r h1 => exact ⟨by simp, by simp, by simp⟩
    | sweepFail t r h1 => exact ⟨by simp, by simp, by simp⟩
    | sweepFinish t h1 => exact ⟨by simp, by simp, by simp⟩
    | drainExit t h1 h2 h3 =>
      refine ⟨fun _ => ?_, fun _ => ?_, fun _ => ?_⟩ <;> exact h3
    | drainFail t h1 => exact ⟨by simp, by simp, by simp⟩
    | ack l₁ sz l₂ d h1 =>
      refine ⟨fun hp => ?_, fun hp => ?_, fun hp => ?_⟩ <;>
        · exfalso
          dsimp only at hp
          have hempty : s.reinsert = [] := by
            rcases ih with ⟨i1, i2, i3⟩
            first
              | exact i1 hp
              | exact i2 hp
              | exact i3 hp
          rw [hempty] at h1
          simp at h1
    | doneAck h1 => exact ⟨by simp, by simp, fun _ => ih.2.1 h1⟩
    | doneFail h1 => exact ⟨by simp, by simp, by simp⟩

/-- C3 (claim theorem): a reachable emigration state that is executing
`emigration_send_done` (`doneWait`) or has completed the DONE handshake
(`termDone`) has an empty reinsert table: `emigration_send_done` is only
reached after the drain loop observed `shash_get_size(reinsert_hash) ==
0`, so a non-empty reinsert table implies DONE has not been sent. -/
theorem reinsert_empty_when_done_sent {p : EmigParams} {s : EmigSt}
    (h : EmigReach p s) (hd : s.phase = .doneWait ∨ s.phase = .termDone) :
    s.reinsert = [] := by
  rcases hd with hd | hd
  · exact (reinsertEmptyInv_reach h).2.1 hd
  · exact (reinsertEmptyInv_reach h).2.2 hd

/-- Witness for C3: with no sub-record tree and an empty record tree,
the state reached after START_ACK_OK is already in `doneWait`, and the
theorem yields its empty reinsert table. -/
theorem reinsert_empty_when_done_sent_witness :
    ({ phase := .doneWait, ckOk := true, reinsert := [], bytes := 0,
       insertsSent := 0 } : EmigSt).reinsert = [] :=
  reinsert_empty_when_done_sent
    (EmigReach.step (p := ⟨10, false, 0, 0⟩) EmigReach.init
      (EmigStep.startAckOk _ rfl))
    (Or.inl rfl)

/-- C1 (claim theorem): in every reachable emigration state,
`bytes_emigrating` is at most `MAX_BYTES_EMIGRATING` plus the size of
one record: each send is gated on the producer having observed
`bytes_emigrating <= MAX_BYTES_EMIGRATING` (the 1 ms poll loop after
each INSERT), so the counter never exceeds the window plus one
maximal record. -/
theorem emigration_backpressure_bounded {p : EmigParams} {s : EmigSt}
    (h : EmigReach p s) :
    s.bytes ≤ (MAX_BYTES_EMIGRATING : Int) + (p.maxRec : Int) := by
  induction h with
  | init =>
    have h0 : (0 : Int) ≤ (MAX_BYTES_EMIGRATING : Int) + (p.maxRec : Int) := by
      positivity
    simpa [EmigSt.init] using h0
  | step hr hs ih =>
    rename_i s s'
    cases hs with
    | sendRecord t r sz h1 h2 h3 h4 =>
      have hsz : (sz : Int) ≤ (p.maxRec : Int) := by exact_mod_cast h3
      show s.bytes + (sz : Int) ≤ _
      omega
    | ack l₁ sz l₂ d h1 =>
      have hd : (0 : Int) ≤ (d : Int) := Int.natCast_nonneg d
      show s.bytes - (d : Int) ≤ _
      omega
    | keyChange => exact ih
    | startCkFail h1 h2 => exact ih
    | startAckOk h1 => exact ih
    | startAckAlreadyDone h1 => exact ih
    | startAckFail h1 => exact ih
    | skipRecord t r h1 => exact ih
    | sweepFail t r h1 => exact ih
    | sweepFinish t h1 => exact ih
    | drainExit t h1 h2 h3 => exact ih
    | drainFail t h1 => exact ih
    | doneAck h1 => exact ih
    | doneFail h1 => exact ih

/-- Witness for C1: a concrete two-step run (START_ACK_OK, then one
record of size 5 sent under a `maxRec = 10` bound) stays within the
window-plus-one-record bound. -/
theorem emigration_backpressure_bounded_witness :
    ({ phase := .treeSweep false 0, ckOk := true, reinsert := [5],
       bytes := (0 : Int) + ((5 : Nat) : Int), insertsSent := 0 + 1 } : EmigSt).bytes ≤
      (MAX_BYTES_EMIGRATING : Int) + ((10 : Nat) : Int) :=
  emigration_backpressure_bounded (p := ⟨10, false, 0, 1⟩)
    (EmigReach.step
      (EmigReach.step EmigReach.init (EmigStep.startAckOk _ rfl))
      (EmigStep.sendRecord _ false 0 5 (by decide) rfl (by decide) (by decide)))

/-! ## DONE idempotence -/

/-- Once the hash entry is gone, further DONE deliveries only send
DONE_ACKs. -/
theorem deliverDones_absent (lifetime : Int) (ts : List Nat) (ctx : DoneCtx)
    (h : ctx.entry = none) :
    (deliverDones lifetime ts ctx).entry = none ∧
    (deliverDones lifetime ts ctx).rxDone = ctx.rxDone ∧
    (deliverDones lifetime ts ctx).acks = ctx.acks + ts.length := by
  induction ts generalizing ctx with
  | nil => simp [deliverDones, h]
  | cons t ts ih =>
    have hstep : immigration_handle_done_request lifetime t ctx =
        { ctx with acks := ctx.acks + 1 } := by
      simp [immigration_handle_done_request, h]
    rw [deliverDones, hstep]
    obtain ⟨e, r, a⟩ := ih { ctx with acks := ctx.acks + 1 } h
    refine ⟨e, r, ?_⟩
    rw [a]
    simp only [List.length_cons]
    omega

/-- Once `done_recv >= 1`, further DONE deliveries only increment
`done_recv` and send DONE_ACKs: no notification, no counter change. -/
theorem deliverDones_stale (lifetime : Int) (ts : List Nat) (ctx : DoneCtx)
    (i : ImmigDone) (d : Nat)
    (h : ctx.entry = some i) (hd : i.done_recv = d + 1) :
    (deliverDones lifetime ts ctx).entry =
      some ⟨d + 1 + ts.length, i.done_recv_ms⟩ ∧
    (deliverDones lifetime ts ctx).rxDone = ctx.rxDone ∧
    (deliverDones lifetime ts ctx).acks = ctx.acks + ts.length := by
  induction ts generalizing ctx i d with
  | nil =>
    obtain ⟨dr, ms⟩ := i
    simp only [ImmigDone.done_recv] at hd
    subst hd
    simp only [deliverDones, List.length_nil, Nat.add_zero]
    exact ⟨h, by trivial, by trivial⟩
  | cons t ts ih =>
    have hstep : immigration_handle_done_request lifetime t ctx =
        { ctx with entry := some ⟨d + 2, i.done_recv_ms⟩,
                   acks := ctx.acks + 1 } := by
      simp [immigration_handle_done_request, h, hd]
    rw [deliverDones, hstep]
    obtain ⟨e, r, a⟩ :=
      ih { ctx with entry := some ⟨d + 2, i.done_recv_ms⟩,
                    acks := ctx.acks + 1 }
        ⟨d + 2, i.done_recv_ms⟩ (d + 1) rfl rfl
    refine ⟨?_, r, ?_⟩
    · rw [e]
      have harith : d + 1 + 1 + ts.length = d + 1 + (t :: ts).length := by
        simp only [List.length_cons]
        omega
      rw [harith]
    · rw [a]
      simp only [List.length_cons]
      omega

/-- C2 (claim theorem): delivering the same DONE message `N >= 1` times
to an existing, fresh (`done_recv = 0`) immigration notifies the
rebalance collaborator (`rx_done`) exactly once, replies DONE_ACK each
time, removes the hash entry immediately when
`migrate_rx_lifetime_ms <= 0`, and otherwise leaves the entry with
`done_recv = N` and `done_recv_ms` recorded by the winning (first)
delivery. -/
theorem immigration_done_idempotent {lifetime : Int} {t : Nat} {ts : List Nat}
    {ctx : DoneCtx} {immig : ImmigDone}
    (hentry : ctx.entry = some immig) (hfresh : immig.done_recv = 0) :
    (deliverDones lifetime (t :: ts) ctx).rxDone = ctx.rxDone + 1 ∧
    (deliverDones lifetime (t :: ts) ctx).acks = ctx.acks + (t :: ts).length ∧
    (lifetime ≤ 0 → (deliverDones lifetime (t :: ts) ctx).entry = none) ∧
    (0 < lifetime →
      (deliverDones lifetime (t :: ts) ctx).entry = some ⟨1 + ts.length, t⟩) := by
  have hstep : immigration_handle_done_request lifetime t ctx =
      { entry := if lifetime ≤ 0 then none else some ⟨1, t⟩
        progressRecv :=
          if ctx.progressRecv - 1 < 0 then ctx.progressRecv - 1 + 1
          else ctx.progressRecv - 1
        rxDone := ctx.rxDone + 1
        acks := ctx.acks + 1 } := by
    simp [immigration_handle_done_request, hentry, hfresh]
  rw [deliverDones, hstep]
  by_cases hl : lifetime ≤ 0
  · obtain ⟨e, r, a⟩ := deliverDones_absent lifetime ts
      { entry := if lifetime ≤ 0 then none else some ⟨1, t⟩
        progressRecv :=
          if ctx.progressRecv - 1 < 0 then ctx.progressRecv - 1 + 1
          else ctx.progressRecv - 1
        rxDone := ctx.rxDone + 1
        acks := ctx.acks + 1 } (by simp [hl])
    refine ⟨by rw [r], ?_, fun _ => e, fun hgt => absurd hgt (by omega)⟩
    rw [a]
    simp only [List.length_cons]
    omega
  · obtain ⟨e, r, a⟩ := deliverDones_stale lifetime ts
      { entry := if lifetime ≤ 0 then none else some ⟨1, t⟩
        progressRecv :=
          if ctx.progressRecv - 1 < 0 then ctx.progressRecv - 1 + 1
          else ctx.progressRecv - 1
        rxDone := ctx.rxDone + 1
        acks := ctx.acks + 1 } ⟨1, t⟩ 0
      (by simp [hl]) rfl
    refine ⟨by rw [r], ?_, fun hle => absurd hle hl, fun _ => ?_⟩
    · rw [a]
      simp only [List.length_cons]
      omega
    · rw [e]

/-- Witness for C2: three deliveries of the same DONE at times 5, 6, 7
with `migrate_rx_lifetime_ms = 0` notify `rx_done` once, ack three
times, and remove the entry. -/
theorem immigration_done_idempotent_witness :
    (deliverDones 0 [5, 6, 7] ⟨some ⟨0, 0⟩, 3, 0, 0⟩).rxDone = 0 + 1 ∧
    (deliverDones 0 [5, 6, 7] ⟨some ⟨0, 0⟩, 3, 0, 0⟩).acks = 0 + [5, 6, 7].length ∧
    ((0 : Int) ≤ 0 → (deliverDones 0 [5, 6, 7] ⟨some ⟨0, 0⟩, 3, 0, 0⟩).entry = none) ∧
    ((0 : Int) < 0 →
      (deliverDones 0 [5, 6, 7] ⟨some ⟨0, 0⟩, 3, 0, 0⟩).entry = some ⟨1 + [6, 7].length, 5⟩) :=
  immigration_done_idempotent rfl rfl

/-! ## START/DONE handshake outcomes and cluster-key terminality -/

/-- C5 (claim theorem): in the iteration of the START wait that pops
START_ACK_ALREADY_DONE (the cluster key still matching, as checked at
the top of that iteration), the emigration terminates as success
(`AS_MIGRATE_STATE_DONE`) with no INSERTs sent and no imbalance
increment; in the iteration that pops START_ACK_FAIL it terminates as
error with `migrate_tx_partitions_imbalance` incremented by one and no
INSERTs sent. -/
theorem start_ack_already_done_and_fail_outcomes (ck : Nat)
    (rest : List StartObs) (treePhases : Option (MigState × Nat × Nat)) :
    emigrate ck
        ({ ckCur := ck, pop := some OPERATION_START_ACK_ALREADY_DONE } :: rest)
        treePhases = some (.done, 0, 0) ∧
    emigrate ck ({ ckCur := ck, pop := some OPERATION_START_ACK_FAIL } :: rest)
        treePhases = some (.error, 1, 0) := by
  constructor <;>
    simp [emigrate, emigration_send_start, OPERATION_START_ACK_OK,
      OPERATION_START_ACK_ALREADY_DONE, OPERATION_START_ACK_EAGAIN,
      OPERATION_START_ACK_FAIL]

/-- Counterexample for C4: the DONE-handshake loop of
`emigration_send_done` never compares the emigration's captured cluster
key (here 1) against the current one: in an iteration that observes
cluster key 2, successfully re-sends, and pops a DONE_ACK, the
emigration terminates as DONE (success) - it does not transition to a
terminal error state as the claim requires. -/
theorem send_done_ignores_cluster_key_counterexample :
    emigration_send_done 1 [⟨2, some .ok, true⟩] = some .done ∧
    (1 : Nat) ≠ 2 ∧ MigState.done ≠ MigState.error := by decide

/-- C4 amended (claim theorem): a cluster-key change is terminal for
the START wait (the loop returns error as soon as an iteration observes
a differing key), for the tree sweep (no further INSERT is ever sent
once `ckOk` is false), and for the retransmit/drain loop (a drain state
with a changed key can never proceed to the DONE handshake); the DONE
handshake itself, however, never examines the cluster key: its outcome
is invariant under arbitrary changes of the observed cluster keys, the
loop exiting only on DONE_ACK (success) or fabric NO_NODE (error). -/
theorem cluster_key_terminality_amended (p : EmigParams) :
    (∀ (ck : Nat) (obs : StartObs) (rest : List StartObs), ck ≠ obs.ckCur →
        emigration_send_start ck (obs :: rest) = some (.error, 0)) ∧
    (∀ (s s' : EmigSt), EmigStep p s s' → s.ckOk = false →
        s'.insertsSent = s.insertsSent) ∧
    (∀ (s s' : EmigSt) (t : Bool), EmigStep p s s' → s.phase = .treeDrain t →
        s.ckOk = false → s'.phase ≠ .doneWait) ∧
    (∀ (emigCk emigCk' : Nat) (l : List DoneObs) (f : DoneObs → Nat),
        emigration_send_done emigCk' (l.map fun o => { o with ckCur := f o }) =
          emigration_send_done emigCk l) := by
  refine ⟨?_, ?_, ?_, ?_⟩
  · intro ck obs rest h
    simp [emigration_send_start, h]
  · intro s s' hs hck
    cases hs with
    | sendRecord t r sz h1 h2 h3 h4 => simp [h2] at hck
    | keyChange => rfl
    | startCkFail h1 h2 => rfl
    | startAckOk h1 => rfl
    | startAckAlreadyDone h1 => rfl
    | startAckFail h1 => rfl
    | skipRecord t r h1 => rfl
    | sweepFail t r h1 => rfl
    | sweepFinish t h1 => rfl
    | drainExit t h1 h2 h3 => rfl
    | drainFail t h1 => rfl
    | ack l₁ sz l₂ d h1 => rfl
    | doneAck h1 => rfl
    | doneFail h1 => rfl
  · intro s s' t hs hp hck
    cases hs with
    | keyChange => simp [hp]
    | startCkFail h1 h2 => simp
    | startAckOk h1 => rw [h1] at hp; cases hp
    | startAckAlreadyDone h1 => simp
    | startAckFail h1 => simp
    | sendRecord t' r sz h1 h2 h3 h4 => simp
    | skipRecord t' r h1 => simp
    | sweepFail t' r h1 => simp
    | sweepFinish t' h1 => simp
    | drainExit t' h1 h2 h3 => simp [h2] at hck
    | drainFail t' h1 => simp
    | ack l₁ sz l₂ d h1 => simp [hp]
    | doneAck h1 => simp
    | doneFail h1 => simp
  · intro a b l f
    induction l with
    | nil => rfl
    | cons o l ih =>
      obtain ⟨ock, osend, opop⟩ := o
      cases osend with
      | none => cases opop <;> simp [emigration_send_done, ih]
      | some rv => cases rv <;> cases opop <;> simp [emigration_send_done, ih]

/-- Witness for C4 amended: concrete instances of all four parts - a
START-wait iteration observing key 2 under captured key 1 errors; a
cluster-key-changed drain state neither sends INSERTs nor reaches the
DONE wait on a `drainFail` step; and the DONE loop's result is the same
under rewritten cluster-key observations. -/
theorem cluster_key_terminality_amended_witness :
    emigration_send_start 1 [⟨2, none⟩] = some (.error, 0) ∧
    ({ phase := .termError, ckOk := false, reinsert := [], bytes := 0,
       insertsSent := 0 } : EmigSt).insertsSent =
      ({ phase := .treeDrain false, ckOk := false, reinsert := [], bytes := 0,
         insertsSent := 0 } : EmigSt).insertsSent ∧
    ({ phase := .termError, ckOk := false, reinsert := [], bytes := 0,
       insertsSent := 0 } : EmigSt).phase ≠ Phase.doneWait ∧
    emigration_send_done 2 [⟨9, none, false⟩] = emigration_send_done 1 [⟨7, none, false⟩] :=
  ⟨(cluster_key_terminality_amended ⟨0, false, 0, 0⟩).1 1 ⟨2, none⟩ [] (by decide),
   (cluster_key_terminality_amended ⟨0, false, 0, 0⟩).2.1 _ _
     (EmigStep.drainFail
       ({ phase := .treeDrain false, ckOk := false, reinsert := [], bytes := 0,
          insertsSent := 0 } : EmigSt) false rfl) rfl,
   (cluster_key_terminality_amended ⟨0, false, 0, 0⟩).2.2.1 _ _ false
     (EmigStep.drainFail
       ({ phase := .treeDrain false, ckOk := false, reinsert := [], bytes := 0,
          insertsSent := 0 } : EmigSt) false rfl) rfl rfl,
   (cluster_key_terminality_amended ⟨0, false, 0, 0⟩).2.2.2 1 2
     [⟨7, none, false⟩] (fun _ => 9)⟩

/-! ## INSERT_ACK handling -/

/-- Deleting an insert id from the reinsert table removes it from
lookup. -/
theorem riLookup_riDelete (insertId : Nat) (ri : List (Nat × Nat)) :
    riLookup insertId (riDelete insertId ri) = none := by
  induction ri with
  | nil => rfl
  | cons e ri ih =>
    by_cases h : e.1 = insertId
    · have hskip : riDelete insertId (e :: ri) = riDelete insertId ri := by
        simp [riDelete, List.filter_cons, h]
      rw [hskip]
      exact ih
    · have hkeep : riDelete insertId (e :: ri) = e :: riDelete insertId ri := by
        simp [riDelete, List.filter_cons, h]
      have hstep : riLookup insertId (e :: riDelete insertId ri) =
          riLookup insertId (riDelete insertId ri) := by
        simp [riLookup, List.find?_cons, h]
      rw [hkeep, hstep]
      exact ih

/-- C6 (claim theorem): an INSERT_ACK whose insert id is present in the
reinsert table releases the stored message, decrements
`bytes_emigrating` by the ack message's size, and deletes the entry
when its source equals the emigration's `dest`; an ack from any other
source leaves the table and the counter untouched. -/
theorem insert_ack_source_check {dest : Nat} {bytes : Int}
    {ri : List (Nat × Nat)} {src insertId ackBytes storedMsg : Nat}
    (hfound : riLookup insertId ri = some storedMsg) :
    (src = dest →
      emigration_handle_insert_ack dest bytes ri src insertId ackBytes =
        ⟨bytes - (ackBytes : Int), riDelete insertId ri, some storedMsg⟩ ∧
      riLookup insertId
        (emigration_handle_insert_ack dest bytes ri src insertId
          ackBytes).reinsert = none) ∧
    (src ≠ dest →
      emigration_handle_insert_ack dest bytes ri src insertId ackBytes =
        ⟨bytes, ri, none⟩) := by
  constructor
  · intro hsrc
    constructor
    · simp [emigration_handle_insert_ack, hfound, hsrc]
    · simp [emigration_handle_insert_ack, hfound, hsrc, riLookup_riDelete]
  · intro hsrc
    simp [emigration_handle_insert_ack, hfound, hsrc]

/-- Witness for C6: insert id 7 stored as message 42, acked by the
destination node 1 with a 30-byte ack. -/
theorem insert_ack_source_check_witness :
    emigration_handle_insert_ack 1 100 [(7, 42)] 1 7 30 =
      ⟨100 - ((30 : Nat) : Int), riDelete 7 [(7, 42)], some 42⟩ ∧
    riLookup 7 (emigration_handle_insert_ack 1 100 [(7, 42)] 1 7 30).reinsert =
      none :=
  (insert_ack_source_check (by decide)).1 rfl

/-! ## INSERT handling: generation defaulting, absent/drifted entries,
and the ack's field frame -/

/-- C7 (claim theorem): when an INSERT is processed against a live
immigration (entry present, cluster key matching) and its record is
handed to the merge collaborator, a missing GENERATION field and a
GENERATION field equal to 0 both yield a merge component with
generation 1. -/
theorem insert_generation_defaulted {hash : Nat × Nat → Option ImmigIns}
    {ckCur src : Nat} {m : MigMsg} {flattenRv : Int} {immig : ImmigIns}
    {emigId dg binCount payload : Nat}
    (hd : m.digest = some dg) (he : m.emig_id = some emigId)
    (hh : hash (src, emigId) = some immig) (hck : immig.cluster_key = ckCur)
    (hr : m.record = some (binCount, payload)) (hbins : binCount ≠ 0)
    (hg : m.generation = none ∨ m.generation = some 0) :
    ((immigration_handle_insert_request hash ckCur src m
        flattenRv).merged).map MergeComp.generation = some 1 := by
  rcases hg with hg | hg <;>
    simp [immigration_handle_insert_request, hd, he, hh, hck, hr, hbins, hg,
      apply_ite]

/-- Witness for C7: a live immigration under cluster key 5 receiving an
INSERT carrying GENERATION 0 merges with generation 1. -/
theorem insert_generation_defaulted_witness :
    ((immigration_handle_insert_request
        (fun k => if k = (3, 9) then some ⟨5⟩ else none) 5 3
        { digest := some 1, emig_id := some 9, record := some (2, 11),
          generation := some 0 } 0).merged).map MergeComp.generation =
      some 1 :=
  insert_generation_defaulted rfl rfl rfl rfl rfl (by decide) (Or.inr rfl)

/-- Counterexample for C8: an INSERT whose `(src, emig_id)` has no entry
in the immigration hash is not merged, but the handler still falls
through to the ack send: an INSERT_ACK is sent and the message is not
freed-without-reply, contradicting the claim that no ack is sent. -/
theorem insert_absent_still_acked_counterexample :
    (immigration_handle_insert_request (fun _ => none) 0 4
        { digest := some 1, emig_id := some 2 } 0).ackMsg ≠ none ∧
    (immigration_handle_insert_request (fun _ => none) 0 4
        { digest := some 1, emig_id := some 2 } 0).merged = none ∧
    (immigration_handle_insert_request (fun _ => none) 0 4
        { digest := some 1, emig_id := some 2 } 0).freed = false := by decide

/-- C8 amended (claim theorem): an INSERT whose immigration's captured
cluster key differs from the current one is dropped without merge or
ack, the message freed; an INSERT whose `(src, emig_id)` has no entry
is not merged either, but an INSERT_ACK is still sent (the handler
falls through to the ack path, so a retransmitted INSERT arriving after
the immigration is reaped is positively acknowledged). -/
theorem insert_absent_or_drift_amended {hash : Nat × Nat → Option ImmigIns}
    {ckCur src : Nat} {m : MigMsg} {flattenRv : Int} {dg emigId : Nat}
    (hd : m.digest = some dg) (he : m.emig_id = some emigId) :
    (hash (src, emigId) = none →
      immigration_handle_insert_request hash ckCur src m flattenRv =
        ⟨none, some (insert_ack_msg m), false⟩) ∧
    (∀ immig : ImmigIns, hash (src, emigId) = some immig →
      immig.cluster_key ≠ ckCur →
      immigration_handle_insert_request hash ckCur src m flattenRv =
        ⟨none, none, true⟩) := by
  constructor
  · intro hh
    simp [immigration_handle_insert_request, hd, he, hh]
  · intro immig hh hck
    simp [immigration_handle_insert_request, hd, he, hh, hck]

/-- Witness for C8 amended: an absent entry still yields an INSERT_ACK;
a cluster-key-drifted entry yields a silent drop. -/
theorem insert_absent_or_drift_amended_witness :
    immigration_handle_insert_request (fun _ => none) 0 4
        { digest := some 1, emig_id := some 2 } 0 =
      ⟨none, some (insert_ack_msg { digest := some 1, emig_id := some 2 }),
        false⟩ ∧
    immigration_handle_insert_request (fun _ => some ⟨3⟩) 0 4
        { digest := some 1, emig_id := some 2 } 0 =
      ⟨none, none, true⟩ :=
  ⟨(insert_absent_or_drift_amended rfl rfl).1 rfl,
   (insert_absent_or_drift_amended rfl rfl).2 ⟨3⟩ rfl (by decide)⟩

/-- Counterexample for C9: the INSERT_ACK built by the insert handler
does NOT preserve the DIGEST field - `msg_set_unset(m,
MIG_FIELD_DIGEST)` clears it before the ack is sent (and the migrate
message template has no NS_ID or TID fields at all). -/
theorem insert_ack_digest_dropped_counterexample :
    (insert_ack_msg
        { digest := some 7, emig_id := some 1, emig_insert_id := some 2 }).digest ≠
      ({ digest := some 7, emig_id := some 1, emig_insert_id := some 2 } :
        MigMsg).digest := by decide

/-- C9 amended (claim theorem): the INSERT_ACK reply sets OP to
INSERT_ACK and clears INFO, RECORD, DIGEST, NAMESPACE, GENERATION,
VOID_TIME and REC_PROPS; every other field of the incoming INSERT
(EMIG_ID, EMIG_INSERT_ID, PARTITION, CLUSTER_KEY, VINFOSET, TYPE,
VERSION, PDIGEST, EDIGEST, PGENERATION, PVOID_TIME) is left unchanged. -/
theorem insert_ack_fields_amended (m : MigMsg) :
    (insert_ack_msg m).op = some OPERATION_INSERT_ACK ∧
    (insert_ack_msg m).digest = none ∧
    (insert_ack_msg m).record = none ∧
    (insert_ack_msg m).nsName = none ∧
    (insert_ack_msg m).generation = none ∧
    (insert_ack_msg m).void_time = none ∧
    (insert_ack_msg m).info = none ∧
    (insert_ack_msg m).rec_props = none ∧
    (insert_ack_msg m).emig_id = m.emig_id ∧
    (insert_ack_msg m).emig_insert_id = m.emig_insert_id ∧
    (insert_ack_msg m).partition = m.partition ∧
    (insert_ack_msg m).cluster_key = m.cluster_key ∧
    (insert_ack_msg m).vinfoset = m.vinfoset ∧
    (insert_ack_msg m).mtype = m.mtype ∧
    (insert_ack_msg m).version = m.version ∧
    (insert_ack_msg m).pdigest = m.pdigest ∧
    (insert_ack_msg m).edigest = m.edigest ∧
    (insert_ack_msg m).pgeneration = m.pgeneration ∧
    (insert_ack_msg m).pvoid_time = m.pvoid_time := by
  refine ⟨rfl, rfl, rfl, rfl, rfl, rfl, rfl, rfl, rfl, rfl, rfl, rfl, rfl,
    rfl, rfl, rfl, rfl, rfl, rfl⟩

/-! ## START handling: duplicate STARTs and hash-key uniqueness -/

/-- A key whose unique-put would succeed (`find?` empty) is absent from
the hash's key list. -/
theorem start_hash_key_new {k : Nat × Nat}
    {hash : List ((Nat × Nat) × ImmigStart)}
    (h : (hash.find? (fun e => e.1 = k)).isSome = false) :
    k ∉ hash.map Prod.fst := by
  intro hmem
  rcases List.mem_map.mp hmem with ⟨e, he, hek⟩
  have : (hash.find? (fun e => e.1 = k)).isSome = true :=
    List.find?_isSome.mpr ⟨e, he, by simp [hek]⟩
  rw [h] at this
  cases this

/-- The START handler preserves key uniqueness of the immigration hash:
every branch leaves the hash unchanged except the successful unique-put,
which conses a key that `find?` just proved absent. -/
theorem start_request_hash_nodup (hash : List ((Nat × Nat) × ImmigStart))
    (ckCur : Nat) (nsOk : Bool) (rxAllow : RxAllowRes) (rsvCk src : Nat)
    (m : MigMsg) (now : Nat) (hnd : (hash.map Prod.fst).Nodup) :
    ((immigration_handle_start_request hash ckCur nsOk rxAllow rsvCk src m
        now).hash.map Prod.fst).Nodup := by
  unfold immigration_handle_start_request
  cases hme : m.emig_id with
  | none => exact hnd
  | some emigId =>
    cases hmc : m.cluster_key with
    | none => exact hnd
    | some ck =>
      by_cases h1 : ck ≠ ckCur
      · simp only [if_pos h1]; exact hnd
      simp only [if_neg h1]
      cases hmn : m.nsName with
      | none => exact hnd
      | some nsn =>
        by_cases h2 : ¬nsOk
        · simp only [if_pos h2]; exact hnd
        simp only [if_neg h2]
        cases hmp : m.partition with
        | none => exact hnd
        | some pid =>
          cases rxAllow with
          | fail => exact hnd
          | again => exact hnd
          | alreadyDone => exact hnd
          | ok =>
            by_cases h3 : ck ≠ rsvCk
            · simp only [if_pos h3]; exact hnd
            simp only [if_neg h3]
            cases h4 : (hash.find? (fun e => e.1 = (src, emigId))).isSome with
            | true =>
              rw [if_pos rfl]
              exact hnd
            | false =>
              rw [if_neg (by simp)]
              exact List.nodup_cons.mpr ⟨start_hash_key_new h4, hnd⟩

/-- C10 (claim theorem): a duplicate START - one whose `(src, emig_id)`
key is already in the immigration hash, so the unique-put fails -
releases the newly allocated immigration, leaves the hash unchanged,
and still replies START_ACK_OK, exactly like the first START; and the
handler preserves key uniqueness of the hash on all inputs, so at most
one immigration per `(src, emig_id)` ever exists. -/
theorem duplicate_start_acked_ok
    {hash : List ((Nat × Nat) × ImmigStart)} {ckCur rsvCk src now : Nat}
    {m : MigMsg} {emigId ck nsn pid : Nat}
    (he : m.emig_id = some emigId) (hck : m.cluster_key = some ck)
    (hckeq : ck = ckCur) (hns : m.nsName = some nsn)
    (hpid : m.partition = some pid) (hrsv : ck = rsvCk)
    (hdup : (hash.find? (fun e => e.1 = (src, emigId))).isSome = true)
    (hash₂ : List ((Nat × Nat) × ImmigStart)) (ckCur₂ rsvCk₂ src₂ now₂ : Nat)
    (nsOk₂ : Bool) (rxAllow₂ : RxAllowRes) (m₂ : MigMsg)
    (hnd : (hash₂.map Prod.fst).Nodup) :
    immigration_handle_start_request hash ckCur true .ok rsvCk src m now =
      ⟨some OPERATION_START_ACK_OK, hash, true, false⟩ ∧
    ((immigration_handle_start_request hash₂ ckCur₂ nsOk₂ rxAllow₂ rsvCk₂ src₂
        m₂ now₂).hash.map Prod.fst).Nodup := by
  constructor
  · subst hckeq
    subst hrsv
    simp [immigration_handle_start_request, he, hck, hns, hpid, hdup]
  · exact start_request_hash_nodup hash₂ ckCur₂ nsOk₂ rxAllow₂ rsvCk₂ src₂ m₂
      now₂ hnd

/-- Witness for C10: a second START for `(src, emig_id) = (3, 9)` with
matching cluster key 5 finds the existing entry, leaves the hash
unchanged, releases the new object, and replies START_ACK_OK; key
uniqueness holds on the resulting hash of a fresh START as well. -/
theorem duplicate_start_acked_ok_witness :
    immigration_handle_start_request [((3, 9), ⟨3, 5, 0⟩)] 5 true .ok 5 3
        { emig_id := some 9, cluster_key := some 5, nsName := some 1,
          partition := some 2 } 100 =
      ⟨some OPERATION_START_ACK_OK, [((3, 9), ⟨3, 5, 0⟩)], true, false⟩ ∧
    ((immigration_handle_start_request [] 5 true .ok 5 3
        { emig_id := some 9, cluster_key := some 5, nsName := some 1,
          partition := some 2 } 100).hash.map Prod.fst).Nodup :=
  duplicate_start_acked_ok rfl rfl rfl rfl rfl rfl (by decide)
    [] 5 5 3 100 true .ok
    { emig_id := some 9, cluster_key := some 5, nsName := some 1,
      partition := some 2 } (by decide)

end Migrate
